import Mathlib

/-!
Verification of `src/functions.py` (stats-stuff): closed-form statistics for
geometric and binomial distributions.

Embedding choices:
* Python numbers are modelled exactly: probabilities as `ℚ`, and arguments the
  code subjects to an `isinstance(_, int)` check as `PyNum`, a tagged value that
  records whether the caller passed an `int` or a `float` (a Python float with
  an integral value still fails `isinstance(_, int)`).
* Every function returns `Except String ℚ`: `.error msg` models
  `raise ValueError(msg)` with the exact message string of the source, `.ok v`
  models `return v`.  The `if`/`elif` chains are transcribed in source order,
  so the first violated check's error is the one produced, as in Python.
* Python's `pow` on a float base with an `int` exponent is `zpow` on `ℚ`
  (exponents are non-negative on every reachable path); `/` is exact `ℚ`
  division; `math.factorial` is `Nat.factorial`.
-/

namespace StatsStuff

/-- A Python numeric argument, remembering whether it was an `int` or a
`float`; `float` carries the exact rational value of the float. -/
inductive PyNum where
  | int (n : ℤ)
  | float (q : ℚ)
deriving DecidableEq, Repr

/-- Models Python `isinstance(x, int)`. -/
def PyNum.isInt : PyNum → Bool
  | .int _ => true
  | .float _ => false

/-- The numeric value, used by comparisons such as `k < 1`. -/
def PyNum.val : PyNum → ℚ
  | .int n => (n : ℚ)
  | .float q => q

/-- The integer content; only consulted after `isInt` has been checked. -/
def PyNum.toInt : PyNum → ℤ
  | .int n => n
  | .float q => q.floor

/-- `mean_geometric_dist(p, support)` from `src/functions.py` lines 3-28. -/
def mean_geometric_dist (p : ℚ) (support : ℤ) : Except String ℚ :=
  if ¬(0 < p ∧ p ≤ 1) then .error "p must agree with 0 < p <= 1."
  else if support = 0 then .ok (1 / p)
  else if support = 1 then .ok ((1 - p) / p)
  else .error "Support can only be 0 or 1."

/-- `pmf_geometric_dist(p, k, support)` from `src/functions.py` lines 30-67. -/
def pmf_geometric_dist (p : ℚ) (k : PyNum) (support : ℤ) : Except String ℚ :=
  if ¬(0 < p ∧ p ≤ 1) then .error "p must agree with 0 < p <= 1."
  else if ¬ k.isInt then .error "k must be an integer."
  else if support = 0 then
    if k.val < 1 then .error "k can only be a non-zero positive integer when support is 0."
    else .ok ((1 - p) ^ (k.toInt - 1) * p)
  else if support = 1 then
    if k.val < 0 then .error "k can only be a positive integer or 0 when support is 1."
    else .ok ((1 - p) ^ k.toInt * p)
  else .error "Support can only be 0 and 1."

/-- `cdf_geometric_dist(p, k, support)` from `src/functions.py` lines 69-105. -/
def cdf_geometric_dist (p : ℚ) (k : PyNum) (support : ℤ) : Except String ℚ :=
  if ¬(0 < p ∧ p ≤ 1) then .error "p must agree with 0 < p <= 1."
  else if ¬ k.isInt then .error "k must be an integer."
  else if support = 0 then
    if k.val < 1 then .error "k can only be a non-zero positive integer when support is 0."
    else .ok (1 - (1 - p) ^ k.toInt)
  else if support = 1 then
    if k.val < 0 then .error "k can only be a positive integer or 0 when support is 1."
    else .ok (1 - (1 - p) ^ (k.toInt + 1))
  else .error "Support can only be 0 and 1."

/-- `mean_binomial_dist(n, p)` from `src/functions.py` lines 107-130. -/
def mean_binomial_dist (n : PyNum) (p : ℚ) : Except String ℚ :=
  if ¬(0 ≤ p ∧ p ≤ 1) then .error "p must agree with 0 <= p <= 1."
  else if ¬ n.isInt then .error "n must be a non-zero positive integer."
  else if n.val ≤ 0 then .error "n must be a non-zero positive integer."
  else .ok (n.val * p)

/-- `pmf_binomial_dist(n, p, k)` from `src/functions.py` lines 132-168. -/
def pmf_binomial_dist (n : PyNum) (p : ℚ) (k : PyNum) : Except String ℚ :=
  if ¬ n.isInt then .error "n must be a non-zero positive integer."
  else if n.val ≤ 0 then .error "n must be a non-zero positive integer."
  else if ¬(0 ≤ p ∧ p ≤ 1) then .error "p must agree with 0 <= p <= 1."
  else if k.val < 0 then .error "k must be 0 or a positive integer."
  else if ¬ k.isInt then .error "k must be 0 or a positive integer."
  else if k.val > n.val then .error "k cannot be larger than n."
  else
    .ok ((Nat.factorial n.toInt.toNat
            / (Nat.factorial k.toInt.toNat * Nat.factorial (n.toInt.toNat - k.toInt.toNat)) : ℚ)
          * p ^ k.toInt * (1 - p) ^ (n.toInt - k.toInt))

/-- The value of the geometric PMF on the valid path (used to phrase the
running-sum relation between CDF and PMF). -/
def pmfGeomVal (p : ℚ) (i : ℤ) (s : ℤ) : ℚ :=
  ((pmf_geometric_dist p (.int i) s).toOption).getD 0

/-- C3: for `0 < p ≤ 1`, `mean_geometric_dist` returns `1/p` for support 0 and
`(1-p)/p` for support 1 (and does return on the valid path); out-of-range `p`
raises the p-range domain error, and an invalid support raises a distinct
support domain error. -/
theorem mean_geometric_dist_spec (p : ℚ) (s : ℤ) :
    (0 < p → p ≤ 1 →
      mean_geometric_dist p 0 = .ok (1 / p) ∧
      mean_geometric_dist p 1 = .ok ((1 - p) / p)) ∧
    (¬(0 < p ∧ p ≤ 1) →
      mean_geometric_dist p s = .error "p must agree with 0 < p <= 1.") ∧
    (0 < p → p ≤ 1 → s ≠ 0 → s ≠ 1 →
      mean_geometric_dist p s = .error "Support can only be 0 or 1.") ∧
    mean_geometric_dist 2 0 ≠ mean_geometric_dist (1/2) 2 := by
  refine ⟨?_, ?_, ?_, ?_⟩
  · intro h0 h1
    constructor <;> simp [mean_geometric_dist, h0, h1]
  · intro h
    simp [mean_geometric_dist, h]
  · intro h0 h1 hs0 hs1
    simp [mean_geometric_dist, h0, h1, hs0, hs1]
  · have h1 : mean_geometric_dist 2 0 = .error "p must agree with 0 < p <= 1." := by
      norm_num [mean_geometric_dist]
    have h2 : mean_geometric_dist (1/2) 2 = .error "Support can only be 0 or 1." := by
      norm_num [mean_geometric_dist]
    rw [h1, h2]
    intro hc
    injection hc with hc
    exact absurd hc (by decide)

/-- C3 witness: the valid path at `p = 1/2`. -/
theorem mean_geometric_dist_spec_witness :
    (0:ℚ) < 1/2 ∧ (1:ℚ)/2 ≤ 1 ∧
    (mean_geometric_dist (1/2) 0 = .ok (1 / (1/2)) ∧
     mean_geometric_dist (1/2) 1 = .ok ((1 - 1/2) / (1/2))) :=
  ⟨by norm_num, by norm_num,
    (mean_geometric_dist_spec (1/2) 0).1 (by norm_num) (by norm_num)⟩

/-- C6 counterexample: at `p = 1`, `support = 1` the function returns `0`,
which is not strictly greater than zero, refuting the claim as stated. -/
theorem mean_geometric_dist_zero_cex :
    mean_geometric_dist 1 1 = .ok 0 ∧ ¬((0:ℚ) < 0) := by
  constructor
  · norm_num [mean_geometric_dist]
  · norm_num

/-- C6 amended: for valid `p` and `support`, the mean is a finite nonnegative
rational; it is strictly positive for support 0, and for support 1 it is
strictly positive whenever `p < 1` (it is `0` exactly when `p = 1`). -/
theorem mean_geometric_dist_positive_amended (p : ℚ) (hp0 : 0 < p) (hp1 : p ≤ 1) :
    (∃ m, mean_geometric_dist p 0 = .ok m ∧ 0 < m) ∧
    (∃ m, mean_geometric_dist p 1 = .ok m ∧ 0 ≤ m ∧ (p < 1 → 0 < m)) := by
  constructor
  · exact ⟨1 / p, by simp [mean_geometric_dist, hp0, hp1], by positivity⟩
  · refine ⟨(1 - p) / p, by simp [mean_geometric_dist, hp0, hp1], ?_, ?_⟩
    · exact div_nonneg (by linarith) hp0.le
    · intro h
      exact div_pos (by linarith) hp0

/-- C6 amended witness: instantiated at `p = 1/2`. -/
theorem mean_geometric_dist_positive_amended_witness :
    (0:ℚ) < 1/2 ∧ (1:ℚ)/2 ≤ 1 ∧
    ((∃ m, mean_geometric_dist (1/2) 0 = .ok m ∧ 0 < m) ∧
     (∃ m, mean_geometric_dist (1/2) 1 = .ok m ∧ 0 ≤ m ∧ ((1:ℚ)/2 < 1 → 0 < m))) :=
  ⟨by norm_num, by norm_num,
    mean_geometric_dist_positive_amended (1/2) (by norm_num) (by norm_num)⟩

/-- C7: `mean_binomial_dist` returns exactly `n * p` on valid inputs, raises a
domain error when `n` is not a positive integer, and raises a domain error when
`p` is outside `0 ≤ p ≤ 1`. -/
theorem mean_binomial_dist_spec :
    (∀ (n : ℤ) (p : ℚ), 0 < n → 0 ≤ p → p ≤ 1 →
      mean_binomial_dist (.int n) p = .ok ((n : ℚ) * p)) ∧
    (∀ (n : PyNum) (p : ℚ), n.isInt = false ∨ n.val ≤ 0 →
      ∃ e, mean_binomial_dist n p = .error e) ∧
    (∀ (n : PyNum) (p : ℚ), ¬(0 ≤ p ∧ p ≤ 1) →
      ∃ e, mean_binomial_dist n p = .error e) := by
  refine ⟨?_, ?_, ?_⟩
  · intro n p hn hp0 hp1
    have hn' : ¬(((n : ℤ) : ℚ) ≤ 0) := not_le.mpr (by exact_mod_cast hn)
    simp [mean_binomial_dist, PyNum.isInt, PyNum.val, hp0, hp1, hn']
  · intro n p h
    by_cases hp : 0 ≤ p ∧ p ≤ 1
    · rcases h with h | h
      · exact ⟨"n must be a non-zero positive integer.",
          by simp [mean_binomial_dist, hp, h]⟩
      · by_cases hi : n.isInt = true
        · exact ⟨"n must be a non-zero positive integer.",
            by simp [mean_binomial_dist, hp, hi, h]⟩
        · exact ⟨"n must be a non-zero positive integer.",
            by simp [mean_binomial_dist, hp, hi]⟩
    · exact ⟨"p must agree with 0 <= p <= 1.",
        by simp [mean_binomial_dist, hp]⟩
  · intro n p h
    exact ⟨"p must agree with 0 <= p <= 1.", by simp [mean_binomial_dist, h]⟩

/-- C7 witness: `mean_binomial_dist(10, 3/10) = 3` on the valid path. -/
theorem mean_binomial_dist_spec_witness :
    (0:ℤ) < 10 ∧ (0:ℚ) ≤ 3/10 ∧ (3:ℚ)/10 ≤ 1 ∧
    mean_binomial_dist (.int 10) (3/10) = .ok ((10 : ℚ) * (3/10)) :=
  ⟨by norm_num, by norm_num, by norm_num,
    mean_binomial_dist_spec.1 10 (3/10) (by norm_num) (by norm_num) (by norm_num)⟩

/-- C9: the shift-by-one relation `mean(p, 0) = mean(p, 1) + 1` between the two
support conventions of the geometric mean. -/
theorem mean_geometric_dist_shift (p : ℚ) (hp0 : 0 < p) (hp1 : p ≤ 1) :
    ∃ m0 m1, mean_geometric_dist p 0 = .ok m0 ∧ mean_geometric_dist p 1 = .ok m1 ∧
      m0 = m1 + 1 := by
  have hp : p ≠ 0 := ne_of_gt hp0
  refine ⟨1 / p, (1 - p) / p, ?_, ?_, ?_⟩
  · simp [mean_geometric_dist, hp0, hp1]
  · simp [mean_geometric_dist, hp0, hp1]
  · field_simp

/-- C9 witness: instantiated at `p = 1/3`. -/
theorem mean_geometric_dist_shift_witness :
    (0:ℚ) < 1/3 ∧ (1:ℚ)/3 ≤ 1 ∧
    (∃ m0 m1, mean_geometric_dist (1/3) 0 = .ok m0 ∧
      mean_geometric_dist (1/3) 1 = .ok m1 ∧ m0 = m1 + 1) :=
  ⟨by norm_num, by norm_num,
    mean_geometric_dist_shift (1/3) (by norm_num) (by norm_num)⟩

/-- C10: with both `n` and `p` invalid, `mean_binomial_dist` raises the
invalid-probability error (it checks `p` first) while `pmf_binomial_dist`
raises the invalid-`n` error (it checks `n` first). -/
theorem binomial_validation_order (n : PyNum) (p : ℚ) (k : PyNum)
    (hn : n.isInt = false ∨ n.val ≤ 0) (hp : ¬(0 ≤ p ∧ p ≤ 1)) :
    mean_binomial_dist n p = .error "p must agree with 0 <= p <= 1." ∧
    pmf_binomial_dist n p k = .error "n must be a non-zero positive integer." := by
  constructor
  · simp [mean_binomial_dist, hp]
  · rcases hn with h | h
    · simp [pmf_binomial_dist, h]
    · by_cases hi : n.isInt = true
      · unfold pmf_binomial_dist
        rw [if_neg (by simp [hi]), if_pos h]
      · simp [pmf_binomial_dist, hi]

/-- C10 witness: `n = 0` and `p = 2` are both invalid. -/
theorem binomial_validation_order_witness :
    ((PyNum.int 0).isInt = false ∨ (PyNum.int 0).val ≤ 0) ∧
    ¬((0:ℚ) ≤ 2 ∧ (2:ℚ) ≤ 1) ∧
    (mean_binomial_dist (.int 0) 2 = .error "p must agree with 0 <= p <= 1." ∧
     pmf_binomial_dist (.int 0) 2 (.int 1) = .error "n must be a non-zero positive integer.") :=
  ⟨Or.inr (by norm_num [PyNum.val]), by norm_num,
    binomial_validation_order (.int 0) 2 (.int 1)
      (Or.inr (by norm_num [PyNum.val])) (by norm_num)⟩

/-- C1: `pmf_geometric_dist` computes `(1-p)^(k-1) * p` (support 0) and
`(1-p)^k * p` (support 1) on valid inputs; on any invalid input it raises a
domain error, with the checks performed in the order p-range, k-is-an-integer,
support-validity, k-range, so the first violated check's error is raised. -/
theorem pmf_geometric_dist_spec :
    (∀ (p : ℚ) (kk : ℤ), 0 < p → p ≤ 1 → 1 ≤ kk →
      pmf_geometric_dist p (.int kk) 0 = .ok ((1 - p) ^ (kk - 1) * p)) ∧
    (∀ (p : ℚ) (kk : ℤ), 0 < p → p ≤ 1 → 0 ≤ kk →
      pmf_geometric_dist p (.int kk) 1 = .ok ((1 - p) ^ kk * p)) ∧
    (∀ (p : ℚ) (k : PyNum) (s : ℤ), ¬(0 < p ∧ p ≤ 1) →
      pmf_geometric_dist p k s = .error "p must agree with 0 < p <= 1.") ∧
    (∀ (p : ℚ) (k : PyNum) (s : ℤ), 0 < p → p ≤ 1 → k.isInt = false →
      pmf_geometric_dist p k s = .error "k must be an integer.") ∧
    (∀ (p : ℚ) (kk : ℤ) (s : ℤ), 0 < p → p ≤ 1 → s ≠ 0 → s ≠ 1 →
      pmf_geometric_dist p (.int kk) s = .error "Support can only be 0 and 1.") ∧
    (∀ (p : ℚ) (kk : ℤ), 0 < p → p ≤ 1 → kk < 1 →
      pmf_geometric_dist p (.int kk) 0 =
        .error "k can only be a non-zero positive integer when support is 0.") ∧
    (∀ (p : ℚ) (kk : ℤ), 0 < p → p ≤ 1 → kk < 0 →
      pmf_geometric_dist p (.int kk) 1 =
        .error "k can only be a positive integer or 0 when support is 1.") := by
  refine ⟨?_, ?_, ?_, ?_, ?_, ?_, ?_⟩
  · intro p kk h0 h1 hk
    have hk' : ¬(((kk : ℤ) : ℚ) < 1) := not_lt.mpr (by exact_mod_cast hk)
    simp [pmf_geometric_dist, PyNum.isInt, PyNum.val, PyNum.toInt, h0, h1, hk']
  · intro p kk h0 h1 hk
    have hk' : ¬(((kk : ℤ) : ℚ) < 0) := not_lt.mpr (by exact_mod_cast hk)
    simp [pmf_geometric_dist, PyNum.isInt, PyNum.val, PyNum.toInt, h0, h1, hk']
  · intro p k s h
    simp [pmf_geometric_dist, h]
  · intro p k s h0 h1 hk
    simp [pmf_geometric_dist, h0, h1, hk]
  · intro p kk s h0 h1 hs0 hs1
    simp [pmf_geometric_dist, PyNum.isInt, h0, h1, hs0, hs1]
  · intro p kk h0 h1 hk
    have hk' : ((kk : ℤ) : ℚ) < 1 := by exact_mod_cast hk
    simp [pmf_geometric_dist, PyNum.isInt, PyNum.val, h0, h1, hk']
  · intro p kk h0 h1 hk
    have hk' : ((kk : ℤ) : ℚ) < 0 := by exact_mod_cast hk
    simp [pmf_geometric_dist, PyNum.isInt, PyNum.val, h0, h1, hk']

/-- C1 witness: `pmf_geometric_dist(1/2, 3, 0) = (1/2)^2 * (1/2)`. -/
theorem pmf_geometric_dist_spec_witness :
    (0:ℚ) < 1/2 ∧ (1:ℚ)/2 ≤ 1 ∧ (1:ℤ) ≤ 3 ∧
    pmf_geometric_dist (1/2) (.int 3) 0 = .ok ((1 - 1/2) ^ ((3:ℤ) - 1) * (1/2)) :=
  ⟨by norm_num, by norm_num, by norm_num,
    pmf_geometric_dist_spec.1 (1/2) 3 (by norm_num) (by norm_num) (by norm_num)⟩

lemma zpow_toNat_of_nonneg (x : ℚ) (m : ℤ) (hm : 0 ≤ m) : x ^ m = x ^ m.toNat := by
  conv_lhs => rw [← Int.toNat_of_nonneg hm]
  rw [zpow_natCast]

lemma pmfGeomVal_support0 (p : ℚ) (hp0 : 0 < p) (hp1 : p ≤ 1) (i : ℕ) (hi : 1 ≤ i) :
    pmfGeomVal p (i : ℤ) 0 = (1 - p) ^ (i - 1) * p := by
  have h1 : ¬(((i : ℤ) : ℚ) < 1) := not_lt.mpr (by exact_mod_cast hi)
  have hi0 : ¬ i = 0 := by omega
  have h2 : pmf_geometric_dist p (.int (i : ℤ)) 0 = .ok ((1 - p) ^ ((i : ℤ) - 1) * p) := by
    simp [pmf_geometric_dist, PyNum.isInt, PyNum.val, PyNum.toInt, hp0, hp1, h1, hi0]
  calc pmfGeomVal p (i : ℤ) 0 = (1 - p) ^ ((i : ℤ) - 1) * p := by
        simp only [pmfGeomVal, h2, Except.toOption, Option.getD_some]
    _ = (1 - p) ^ (i - 1) * p := by
        rw [show (i : ℤ) - 1 = ((i - 1 : ℕ) : ℤ) by omega, zpow_natCast]

lemma pmfGeomVal_support1 (p : ℚ) (hp0 : 0 < p) (hp1 : p ≤ 1) (i : ℕ) :
    pmfGeomVal p (i : ℤ) 1 = (1 - p) ^ i * p := by
  have h1 : ¬(((i : ℤ) : ℚ) < 0) := not_lt.mpr (by positivity)
  have h2 : pmf_geometric_dist p (.int (i : ℤ)) 1 = .ok ((1 - p) ^ ((i : ℤ)) * p) := by
    simp [pmf_geometric_dist, PyNum.isInt, PyNum.val, PyNum.toInt, hp0, hp1, h1]
  calc pmfGeomVal p (i : ℤ) 1 = (1 - p) ^ ((i : ℤ)) * p := by
        simp only [pmfGeomVal, h2, Except.toOption, Option.getD_some]
    _ = (1 - p) ^ i * p := by rw [zpow_natCast]

lemma sum_geom_pmf0 (p : ℚ) (k : ℕ) :
    ∑ i ∈ Finset.Icc 1 k, (1 - p) ^ (i - 1) * p = 1 - (1 - p) ^ k := by
  induction k with
  | zero => simp
  | succ m ih =>
    rw [Finset.sum_Icc_succ_top (by omega), ih, Nat.add_sub_cancel, pow_succ]
    ring

lemma sum_geom_pmf1 (p : ℚ) (k : ℕ) :
    ∑ i ∈ Finset.Icc 0 k, (1 - p) ^ i * p = 1 - (1 - p) ^ (k + 1) := by
  induction k with
  | zero => simp
  | succ m ih =>
    rw [Finset.sum_Icc_succ_top (by omega), ih, pow_succ]
    ring

/-- C4: the geometric CDF equals the running sum of the geometric PMF from the
domain minimum (1 for support 0, 0 for support 1) up to `k`, exactly in exact
arithmetic. -/
theorem cdf_geometric_dist_running_sum (p : ℚ) (hp0 : 0 < p) (hp1 : p ≤ 1) :
    (∀ k : ℕ, 1 ≤ k →
      cdf_geometric_dist p (.int (k : ℤ)) 0 =
        .ok (∑ i ∈ Finset.Icc 1 k, pmfGeomVal p (i : ℤ) 0)) ∧
    (∀ k : ℕ,
      cdf_geometric_dist p (.int (k : ℤ)) 1 =
        .ok (∑ i ∈ Finset.Icc 0 k, pmfGeomVal p (i : ℤ) 1)) := by
  constructor
  · intro k hk
    have h1 : ¬(((k : ℤ) : ℚ) < 1) := not_lt.mpr (by exact_mod_cast hk)
    have hsum : ∑ i ∈ Finset.Icc 1 k, pmfGeomVal p (i : ℤ) 0 = 1 - (1 - p) ^ k := by
      rw [Finset.sum_congr rfl
        (fun i hi => pmfGeomVal_support0 p hp0 hp1 i (Finset.mem_Icc.mp hi).1)]
      exact sum_geom_pmf0 p k
    have hk0 : ¬ k = 0 := by omega
    have hcdf : cdf_geometric_dist p (.int (k : ℤ)) 0 = .ok (1 - (1 - p) ^ ((k : ℤ))) := by
      simp [cdf_geometric_dist, PyNum.isInt, PyNum.val, PyNum.toInt, hp0, hp1, h1, hk0]
    rw [hsum, hcdf, zpow_natCast]
  · intro k
    have h1 : ¬(((k : ℤ) : ℚ) < 0) := not_lt.mpr (by positivity)
    have hsum : ∑ i ∈ Finset.Icc 0 k, pmfGeomVal p (i : ℤ) 1 = 1 - (1 - p) ^ (k + 1) := by
      rw [Finset.sum_congr rfl (fun i _ => pmfGeomVal_support1 p hp0 hp1 i)]
      exact sum_geom_pmf1 p k
    have hcdf : cdf_geometric_dist p (.int (k : ℤ)) 1 =
        .ok (1 - (1 - p) ^ ((k : ℤ) + 1)) := by
      simp [cdf_geometric_dist, PyNum.isInt, PyNum.val, PyNum.toInt, hp0, hp1, h1]
    rw [hsum, hcdf, show (k : ℤ) + 1 = ((k + 1 : ℕ) : ℤ) by omega, zpow_natCast]

/-- C4 witness: instantiated at `p = 1/2`, `k = 2`, support 0. -/
theorem cdf_geometric_dist_running_sum_witness :
    (0:ℚ) < 1/2 ∧ (1:ℚ)/2 ≤ 1 ∧ (1:ℕ) ≤ 2 ∧
    cdf_geometric_dist (1/2) (.int ((2:ℕ) : ℤ)) 0 =
      .ok (∑ i ∈ Finset.Icc 1 2, pmfGeomVal (1/2) (i : ℤ) 0) :=
  ⟨by norm_num, by norm_num, by norm_num,
    (cdf_geometric_dist_running_sum (1/2) (by norm_num) (by norm_num)).1 2 (by norm_num)⟩

lemma cdf_geometric_dist_ok0 (p : ℚ) (hp0 : 0 < p) (hp1 : p ≤ 1) (kk : ℤ) (hk : 1 ≤ kk) :
    cdf_geometric_dist p (.int kk) 0 = .ok (1 - (1 - p) ^ kk.toNat) := by
  have h1 : ¬((kk : ℚ) < 1) := not_lt.mpr (by exact_mod_cast hk)
  have h2 : cdf_geometric_dist p (.int kk) 0 = .ok (1 - (1 - p) ^ kk) := by
    simp [cdf_geometric_dist, PyNum.isInt, PyNum.val, PyNum.toInt, hp0, hp1, h1]
  rw [h2, zpow_toNat_of_nonneg _ _ (by omega)]

lemma cdf_geometric_dist_ok1 (p : ℚ) (hp0 : 0 < p) (hp1 : p ≤ 1) (kk : ℤ) (hk : 0 ≤ kk) :
    cdf_geometric_dist p (.int kk) 1 = .ok (1 - (1 - p) ^ (kk + 1).toNat) := by
  have h1 : ¬((kk : ℚ) < 0) := not_lt.mpr (by exact_mod_cast hk)
  have h2 : cdf_geometric_dist p (.int kk) 1 = .ok (1 - (1 - p) ^ (kk + 1)) := by
    simp [cdf_geometric_dist, PyNum.isInt, PyNum.val, PyNum.toInt, hp0, hp1, h1]
  rw [h2, zpow_toNat_of_nonneg _ _ (by omega)]

/-- C8: for fixed valid `p` and support, the geometric CDF is monotonically
non-decreasing in `k` over the valid outcome domain. -/
theorem cdf_geometric_dist_monotone (p : ℚ) (hp0 : 0 < p) (hp1 : p ≤ 1) :
    (∀ k1 k2 : ℤ, 1 ≤ k1 → k1 ≤ k2 →
      ∃ c1 c2, cdf_geometric_dist p (.int k1) 0 = .ok c1 ∧
        cdf_geometric_dist p (.int k2) 0 = .ok c2 ∧ c1 ≤ c2) ∧
    (∀ k1 k2 : ℤ, 0 ≤ k1 → k1 ≤ k2 →
      ∃ c1 c2, cdf_geometric_dist p (.int k1) 1 = .ok c1 ∧
        cdf_geometric_dist p (.int k2) 1 = .ok c2 ∧ c1 ≤ c2) := by
  have hq0 : (0:ℚ) ≤ 1 - p := by linarith
  have hq1 : (1:ℚ) - p ≤ 1 := by linarith
  constructor
  · intro k1 k2 hk1 hk12
    refine ⟨1 - (1 - p) ^ k1.toNat, 1 - (1 - p) ^ k2.toNat,
      cdf_geometric_dist_ok0 p hp0 hp1 k1 hk1,
      cdf_geometric_dist_ok0 p hp0 hp1 k2 (le_trans hk1 hk12), ?_⟩
    have h := pow_le_pow_of_le_one hq0 hq1 (show k1.toNat ≤ k2.toNat by omega)
    linarith
  · intro k1 k2 hk1 hk12
    refine ⟨1 - (1 - p) ^ (k1 + 1).toNat, 1 - (1 - p) ^ (k2 + 1).toNat,
      cdf_geometric_dist_ok1 p hp0 hp1 k1 hk1,
      cdf_geometric_dist_ok1 p hp0 hp1 k2 (le_trans hk1 hk12), ?_⟩
    have h := pow_le_pow_of_le_one hq0 hq1 (show (k1 + 1).toNat ≤ (k2 + 1).toNat by omega)
    linarith

/-- C8 witness: instantiated at `p = 1/2`, `k1 = 1`, `k2 = 3`, support 0. -/
theorem cdf_geometric_dist_monotone_witness :
    (0:ℚ) < 1/2 ∧ (1:ℚ)/2 ≤ 1 ∧ (1:ℤ) ≤ 1 ∧ (1:ℤ) ≤ 3 ∧
    (∃ c1 c2, cdf_geometric_dist (1/2) (.int 1) 0 = .ok c1 ∧
      cdf_geometric_dist (1/2) (.int 3) 0 = .ok c2 ∧ c1 ≤ c2) :=
  ⟨by norm_num, by norm_num, by norm_num, by norm_num,
    (cdf_geometric_dist_monotone (1/2) (by norm_num) (by norm_num)).1 1 3
      (by norm_num) (by norm_num)⟩

lemma pmf_binomial_dist_ok (n k : ℕ) (p : ℚ) (hn : 0 < n) (hkn : k ≤ n)
    (hp0 : 0 ≤ p) (hp1 : p ≤ 1) :
    pmf_binomial_dist (.int n) p (.int k) =
      .ok ((n.choose k : ℚ) * p ^ k * (1 - p) ^ (n - k)) := by
  have hnv : ¬(((n : ℤ) : ℚ) ≤ 0) := not_le.mpr (by exact_mod_cast hn)
  have hkv : ¬(((k : ℤ) : ℚ) < 0) := not_lt.mpr (by positivity)
  have hkn' : ¬(((n : ℤ) : ℚ) < ((k : ℤ) : ℚ)) := not_lt.mpr (by exact_mod_cast hkn)
  have hn0 : ¬ n = 0 := by omega
  have hkq2 : ¬((k : ℚ) < 0) := not_lt.mpr (by positivity)
  have hnk : ¬ n < k := by omega
  have step : pmf_binomial_dist (.int n) p (.int k) =
      .ok ((n.factorial : ℚ) / ((k.factorial : ℚ) * ((n - k).factorial : ℚ))
        * p ^ ((k : ℤ)) * (1 - p) ^ ((n : ℤ) - (k : ℤ))) := by
    simp [pmf_binomial_dist, PyNum.isInt, PyNum.val, PyNum.toInt, hp0, hp1, hnv, hkv, hkn',
      hn0, hkq2, hnk]
  rw [step, Nat.cast_choose ℚ hkn]
  congr 1
  rw [zpow_natCast, show (n : ℤ) - (k : ℤ) = ((n - k : ℕ) : ℤ) by omega, zpow_natCast]

/-- C2: `pmf_binomial_dist` computes `C(n,k) * p^k * (1-p)^(n-k)` with the
exact binomial coefficient on valid inputs, honours the `0^0 = 1` convention at
`p = 0` and `p = 1`, and each of the four precondition classes is enforced by a
domain error. -/
theorem pmf_binomial_dist_spec :
    (∀ (n k : ℕ) (p : ℚ), 0 < n → k ≤ n → 0 ≤ p → p ≤ 1 →
      pmf_binomial_dist (.int n) p (.int k) =
        .ok ((n.choose k : ℚ) * p ^ k * (1 - p) ^ (n - k))) ∧
    (∀ (n k : ℕ), 0 < n → k ≤ n →
      pmf_binomial_dist (.int n) 0 (.int k) = .ok (if k = 0 then 1 else 0)) ∧
    (∀ (n k : ℕ), 0 < n → k ≤ n →
      pmf_binomial_dist (.int n) 1 (.int k) = .ok (if k = n then 1 else 0)) ∧
    (∀ (n : PyNum) (p : ℚ) (k : PyNum), n.isInt = false ∨ n.val ≤ 0 →
      pmf_binomial_dist n p k = .error "n must be a non-zero positive integer.") ∧
    (∀ (nn : ℤ) (p : ℚ) (k : PyNum), 0 < nn → ¬(0 ≤ p ∧ p ≤ 1) →
      pmf_binomial_dist (.int nn) p k = .error "p must agree with 0 <= p <= 1.") ∧
    (∀ (nn : ℤ) (p : ℚ) (k : PyNum), 0 < nn → 0 ≤ p → p ≤ 1 →
      k.val < 0 ∨ k.isInt = false →
      pmf_binomial_dist (.int nn) p k = .error "k must be 0 or a positive integer.") ∧
    (∀ (nn kk : ℤ) (p : ℚ), 0 < nn → 0 ≤ p → p ≤ 1 → 0 ≤ kk → nn < kk →
      pmf_binomial_dist (.int nn) p (.int kk) = .error "k cannot be larger than n.") := by
  refine ⟨fun n k p hn hkn hp0 hp1 => pmf_binomial_dist_ok n k p hn hkn hp0 hp1,
    ?_, ?_, ?_, ?_, ?_, ?_⟩
  · intro n k hn hkn
    rw [pmf_binomial_dist_ok n k 0 hn hkn (by norm_num) (by norm_num)]
    by_cases hk : k = 0
    · subst hk
      simp
    · simp [hk, zero_pow hk]
  · intro n k hn hkn
    rw [pmf_binomial_dist_ok n k 1 hn hkn (by norm_num) (by norm_num)]
    by_cases hk : k = n
    · subst hk
      simp
    · have hnk : n - k ≠ 0 := by omega
      simp [hk, zero_pow hnk]
  · intro n p k h
    rcases h with h | h
    · simp [pmf_binomial_dist, h]
    · by_cases hi : n.isInt = true
      · unfold pmf_binomial_dist
        rw [if_neg (by simp [hi]), if_pos h]
      · simp [pmf_binomial_dist, hi]
  · intro nn p k hn hp
    have hnv : ¬(((nn : ℤ) : ℚ) ≤ 0) := not_le.mpr (by exact_mod_cast hn)
    simp [pmf_binomial_dist, PyNum.isInt, PyNum.val, hnv, hp]
  · intro nn p k hn hp0 hp1 hk
    have hnv : ¬(((nn : ℤ) : ℚ) ≤ 0) := not_le.mpr (by exact_mod_cast hn)
    have hnz : ¬ nn ≤ 0 := by omega
    rcases hk with hk | hk
    · rcases k with kk | kq
      · have hkz : kk < 0 := by exact_mod_cast (show ((kk : ℤ) : ℚ) < 0 by
          simpa [PyNum.val] using hk)
        simp [pmf_binomial_dist, PyNum.isInt, PyNum.val, hnv, hnz, hp0, hp1, hkz]
      · have hkq : kq < 0 := by simpa [PyNum.val] using hk
        simp [pmf_binomial_dist, PyNum.isInt, PyNum.val, hnv, hnz, hp0, hp1, hkq]
    · rcases k with kk | kq
      · simp [PyNum.isInt] at hk
      · by_cases hneg : kq < 0
        · simp [pmf_binomial_dist, PyNum.isInt, PyNum.val, hnv, hnz, hp0, hp1, hneg]
        · simp [pmf_binomial_dist, PyNum.isInt, PyNum.val, hnv, hnz, hp0, hp1, hneg]
  · intro nn kk p hn hp0 hp1 hk0 hkn
    have hnv : ¬(((nn : ℤ) : ℚ) ≤ 0) := not_le.mpr (by exact_mod_cast hn)
    have hkv : ¬(((kk : ℤ) : ℚ) < 0) := not_lt.mpr (by exact_mod_cast hk0)
    have hkn' : ((nn : ℤ) : ℚ) < ((kk : ℤ) : ℚ) := by exact_mod_cast hkn
    simp [pmf_binomial_dist, PyNum.isInt, PyNum.val, hnv, hp0, hp1, hkv, hkn']

/-- C2 witness: `pmf_binomial_dist(2, 1/2, 1) = C(2,1) * (1/2) * (1/2)`. -/
theorem pmf_binomial_dist_spec_witness :
    0 < 2 ∧ 1 ≤ 2 ∧ (0:ℚ) ≤ 1/2 ∧ (1:ℚ)/2 ≤ 1 ∧
    pmf_binomial_dist (.int ((2:ℕ) : ℤ)) (1/2) (.int ((1:ℕ) : ℤ)) =
      .ok ((Nat.choose 2 1 : ℚ) * (1/2) ^ 1 * (1 - 1/2) ^ (2 - 1)) :=
  ⟨by norm_num, by norm_num, by norm_num, by norm_num,
    pmf_binomial_dist_spec.1 2 1 (1/2) (by norm_num) (by norm_num)
      (by norm_num) (by norm_num)⟩

/-- C5 counterexample: in `pmf_binomial_dist` the "k is not an integer"
violation and the "k out of range" violation raise the same error message, and
in `mean_binomial_dist` the "n is not an integer" and "n out of range"
violations raise the same error message, so they are not distinguishable. -/
theorem binomial_error_collision_cex :
    pmf_binomial_dist (.int 2) (1/2) (.float (1/2)) =
        .error "k must be 0 or a positive integer." ∧
    pmf_binomial_dist (.int 2) (1/2) (.int (-1)) =
        .error "k must be 0 or a positive integer." ∧
    mean_binomial_dist (.float (5/2)) (1/2) =
        .error "n must be a non-zero positive integer." ∧
    mean_binomial_dist (.int 0) (1/2) =
        .error "n must be a non-zero positive integer." := by
  refine ⟨?_, ?_, ?_, ?_⟩ <;>
    norm_num [pmf_binomial_dist, mean_binomial_dist, PyNum.isInt, PyNum.val]

/-- C5 amended: the invalid-probability, invalid-support, invalid-count-type
and invalid-count-range violations in the geometric functions
(`mean_geometric_dist`, `pmf_geometric_dist`, `cdf_geometric_dist`) each raise
a distinct error, and `pmf_binomial_dist`'s `k > n` error is distinct from that
function's other messages; but in `pmf_binomial_dist` the "k is not an
integer" and "k < 0" violations share one error message, and in
`mean_binomial_dist` the "n is not an integer" and "n out of range" violations
share one error message. -/
theorem error_distinctness_amended :
    (∀ (nn : ℤ) (p : ℚ) (k : PyNum), 0 < nn → 0 ≤ p → p ≤ 1 → k.val < 0 →
      pmf_binomial_dist (.int nn) p k = .error "k must be 0 or a positive integer.") ∧
    (∀ (nn : ℤ) (p : ℚ) (k : PyNum), 0 < nn → 0 ≤ p → p ≤ 1 → 0 ≤ k.val →
      k.isInt = false →
      pmf_binomial_dist (.int nn) p k = .error "k must be 0 or a positive integer.") ∧
    (∀ (n : PyNum) (p : ℚ), 0 ≤ p → p ≤ 1 → n.isInt = false →
      mean_binomial_dist n p = .error "n must be a non-zero positive integer.") ∧
    (∀ (nn : ℤ) (p : ℚ), 0 ≤ p → p ≤ 1 → nn ≤ 0 →
      mean_binomial_dist (.int nn) p = .error "n must be a non-zero positive integer.") ∧
    (pmf_geometric_dist 2 (.int 1) 0 = .error "p must agree with 0 < p <= 1." ∧
     pmf_geometric_dist (1/2) (.float (1/2)) 0 = .error "k must be an integer." ∧
     pmf_geometric_dist (1/2) (.int 1) 2 = .error "Support can only be 0 and 1." ∧
     pmf_geometric_dist (1/2) (.int 0) 0 =
       .error "k can only be a non-zero positive integer when support is 0." ∧
     pmf_geometric_dist (1/2) (.int (-1)) 1 =
       .error "k can only be a positive integer or 0 when support is 1.") ∧
    (["p must agree with 0 < p <= 1.", "k must be an integer.",
      "Support can only be 0 and 1.",
      "k can only be a non-zero positive integer when support is 0.",
      "k can only be a positive integer or 0 when support is 1.",
      "k cannot be larger than n."] : List String).Pairwise (· ≠ ·) ∧
    (cdf_geometric_dist 2 (.int 1) 0 = .error "p must agree with 0 < p <= 1." ∧
     cdf_geometric_dist (1/2) (.float (1/2)) 0 = .error "k must be an integer." ∧
     cdf_geometric_dist (1/2) (.int 1) 2 = .error "Support can only be 0 and 1." ∧
     cdf_geometric_dist (1/2) (.int 0) 0 =
       .error "k can only be a non-zero positive integer when support is 0." ∧
     cdf_geometric_dist (1/2) (.int (-1)) 1 =
       .error "k can only be a positive integer or 0 when support is 1.") ∧
    (mean_geometric_dist 2 0 = .error "p must agree with 0 < p <= 1." ∧
     mean_geometric_dist (1/2) 2 = .error "Support can only be 0 or 1." ∧
     ("p must agree with 0 < p <= 1." : String) ≠ "Support can only be 0 or 1.") ∧
    pmf_binomial_dist (.int 2) (1/2) (.int 3) = .error "k cannot be larger than n." ∧
    (["n must be a non-zero positive integer.", "p must agree with 0 <= p <= 1.",
      "k must be 0 or a positive integer.",
      "k cannot be larger than n."] : List String).Pairwise (· ≠ ·) := by
  refine ⟨?_, ?_, ?_, ?_, ?_, ?_, ?_, ?_, ?_, ?_⟩
  · intro nn p k hn hp0 hp1 hk
    have hnv : ¬(((nn : ℤ) : ℚ) ≤ 0) := not_le.mpr (by exact_mod_cast hn)
    have hnz : ¬ nn ≤ 0 := by omega
    rcases k with kk | kq
    · have hkz : kk < 0 := by exact_mod_cast (show ((kk : ℤ) : ℚ) < 0 by
        simpa [PyNum.val] using hk)
      simp [pmf_binomial_dist, PyNum.isInt, PyNum.val, hnv, hnz, hp0, hp1, hkz]
    · have hkq : kq < 0 := by simpa [PyNum.val] using hk
      simp [pmf_binomial_dist, PyNum.isInt, PyNum.val, hnv, hnz, hp0, hp1, hkq]
  · intro nn p k hn hp0 hp1 hk0 hki
    have hnv : ¬(((nn : ℤ) : ℚ) ≤ 0) := not_le.mpr (by exact_mod_cast hn)
    have hnz : ¬ nn ≤ 0 := by omega
    rcases k with kk | kq
    · simp [PyNum.isInt] at hki
    · have hkq : ¬ kq < 0 := not_lt.mpr (by simpa [PyNum.val] using hk0)
      simp [pmf_binomial_dist, PyNum.isInt, PyNum.val, hnv, hnz, hp0, hp1, hkq]
  · intro n p hp0 hp1 hi
    simp [mean_binomial_dist, hp0, hp1, hi]
  · intro nn p hp0 hp1 hn
    have hnv : ((nn : ℤ) : ℚ) ≤ 0 := by exact_mod_cast hn
    by_cases hi : (PyNum.int nn).isInt = true
    · unfold mean_binomial_dist
      rw [if_neg (by simp [hp0, hp1]), if_neg (by simp [hi]), if_pos]
      simpa [PyNum.val] using hnv
    · simp [PyNum.isInt] at hi
  · refine ⟨?_, ?_, ?_, ?_, ?_⟩ <;>
      norm_num [pmf_geometric_dist, PyNum.isInt, PyNum.val]
  · decide
  · refine ⟨?_, ?_, ?_, ?_, ?_⟩ <;>
      norm_num [cdf_geometric_dist, PyNum.isInt, PyNum.val]
  · refine ⟨?_, ?_, ?_⟩
    · norm_num [mean_geometric_dist]
    · norm_num [mean_geometric_dist]
    · decide
  · norm_num [pmf_binomial_dist, PyNum.isInt, PyNum.val]
  · decide

/-- C5 amended witness: the shared `k` message at `k = -1`. -/
theorem error_distinctness_amended_witness :
    (0:ℤ) < 2 ∧ (0:ℚ) ≤ 1/2 ∧ (1:ℚ)/2 ≤ 1 ∧ (PyNum.int (-1)).val < 0 ∧
    pmf_binomial_dist (.int 2) (1/2) (.int (-1)) =
      .error "k must be 0 or a positive integer." :=
  ⟨by norm_num, by norm_num, by norm_num, by norm_num [PyNum.val],
    error_distinctness_amended.1 2 (1/2) (.int (-1)) (by norm_num) (by norm_num)
      (by norm_num) (by norm_num [PyNum.val])⟩

end StatsStuff
